import Mathlib

/-!
Verification development for the Inventory-App backend.

Shallow embedding of the Express + PostgreSQL backend
(`server.js`, the Postgres variant): the inventory routes
(`GET /inventory`, `POST /inventory`, `PUT /inventory/:id`,
`DELETE /inventory/:id`, `POST /inventory/:id/duplicate`,
`POST /inventory/:id/refill`), the role gate `middlewares.authorize`,
and the utilities `utils.sanitizeInput` / `utils.formatDate`.

JavaScript payload values are modelled by `JVal` (absent key = `undef`,
JSON null = `null`, strings, numbers), so the source's distinction
between `x === undefined`, falsiness (`!x`, `x ? _ : _`, `x || null`)
and "push the value as-is" is preserved.  The database is a list of rows
plus a counter for freshly assigned ids; `CURRENT_TIMESTAMP` and
`new Date()` are modelled by an explicit `now : DateTime` argument.
`new Date(string)` parsing is modelled for the ISO shapes
`YYYY-MM-DD` and `YYYY-MM-DD HH:mm:ss`; any other string is an invalid
date, on which date-fns `format` throws (numeric epoch input is not
modelled; the theorems about dates quantify over string inputs).
-/

namespace Inventory

/-- A JavaScript value as it appears in a JSON request body or a
database cell: `undef` models a key that is absent (`undefined`),
`null` models JSON null / SQL NULL, `str` and `num` model strings and
numbers. -/
inductive JVal where
  | undef
  | null
  | str (s : String)
  | num (n : Int)
deriving Repr, DecidableEq

/-- JavaScript falsiness of a `JVal`: `undefined`, `null`, `""` and `0`
are falsy. -/
def jfalsy : JVal → Bool
  | .undef => true
  | .null => true
  | .str s => s == ""
  | .num n => n == 0

/-- JavaScript truthiness. -/
def jtruthy (v : JVal) : Bool := !jfalsy v

/-- The source idiom `x || null`: falsy values are coerced to null. -/
def jOrNull (v : JVal) : JVal := if jfalsy v then .null else v

/-- Destructuring with a default (`const { x = d } = body`): the default
applies exactly when the key is absent (`undefined`), not when it is
null. -/
def dflt (v d : JVal) : JVal := if v = .undef then d else v

/-- A wall-clock date-time, the value space of `new Date(...)` (valid
dates only; time zone is not modelled). -/
structure DateTime where
  year : Nat
  month : Nat
  day : Nat
  hour : Nat
  minute : Nat
  second : Nat
deriving Repr, DecidableEq

/-- Are all characters decimal digits (and the list non-empty)? -/
def allDigits (l : List Char) : Bool := !l.isEmpty && l.all Char.isDigit

/-- Decimal value of a digit list. -/
def digitsToNat (l : List Char) : Nat :=
  l.foldl (fun a c => a * 10 + (c.toNat - 48)) 0

/-- Split a character list at every occurrence of the separator
(`String.splitOn` for a single-character separator). -/
def splitOnChar (sep : Char) : List Char → List (List Char)
  | [] => [[]]
  | c :: cs =>
    let rest := splitOnChar sep cs
    if c = sep then [] :: rest
    else
      match rest with
      | [] => [[c]]
      | g :: gs => (c :: g) :: gs

/-- Parse the `YYYY-MM-DD` part of an ISO date string, with the
calendar bounds checked by the JavaScript ISO date parser. -/
def parseYMD (l : List Char) : Option (Nat × Nat × Nat) :=
  match splitOnChar '-' l with
  | [y, m, d] =>
    if allDigits y && y.length == 4
        && allDigits m && m.length == 2
        && allDigits d && d.length == 2 then
      let yn := digitsToNat y
      let mn := digitsToNat m
      let dn := digitsToNat d
      if 1 ≤ mn && mn ≤ 12 && 1 ≤ dn && dn ≤ 31 then some (yn, mn, dn)
      else none
    else none
  | _ => none

/-- Parse the `HH:mm:ss` part of an ISO date-time string. -/
def parseHMS (l : List Char) : Option (Nat × Nat × Nat) :=
  match splitOnChar ':' l with
  | [h, m, sec] =>
    if allDigits h && h.length == 2
        && allDigits m && m.length == 2
        && allDigits sec && sec.length == 2 then
      let hn := digitsToNat h
      let mn := digitsToNat m
      let sn := digitsToNat sec
      if hn ≤ 23 && mn ≤ 59 && sn ≤ 59 then some (hn, mn, sn)
      else none
    else none
  | _ => none

/-- Model of `new Date(string)` for the ISO shapes `YYYY-MM-DD` and
`YYYY-MM-DD HH:mm:ss`; every other string yields an Invalid Date,
modelled as `none`. -/
def parseDate (s : String) : Option DateTime :=
  match splitOnChar ' ' s.data with
  | [d] => (parseYMD d).map fun (y, m, dd) =>
      ⟨y, m, dd, 0, 0, 0⟩
  | [d, t] =>
    match parseYMD d, parseHMS t with
    | some (y, m, dd), some (h, mi, sec) => some ⟨y, m, dd, h, mi, sec⟩
    | _, _ => none
  | _ => none

/-- The decimal digit character for `n % 10`. -/
def dchar (n : Nat) : Char := Char.ofNat (48 + n % 10)

/-- date-fns `format(date, 'yyyy-MM-dd HH:mm:ss')` on a valid date:
each component zero-padded (the year to four digits, the rest to two;
faithful for the component bounds guaranteed by `parseDate`). -/
def formatDateStr (dt : DateTime) : String :=
  String.mk [dchar (dt.year / 1000), dchar (dt.year / 100),
             dchar (dt.year / 10), dchar dt.year, '-',
             dchar (dt.month / 10), dchar dt.month, '-',
             dchar (dt.day / 10), dchar dt.day, ' ',
             dchar (dt.hour / 10), dchar dt.hour, ':',
             dchar (dt.minute / 10), dchar dt.minute, ':',
             dchar (dt.second / 10), dchar dt.second]

/-- Does the string have the shape `YYYY-MM-DD HH:mm:ss` (digits in the
digit positions, the right punctuation in between)? -/
def isDateTimePattern (s : String) : Bool :=
  match s.data with
  | [y1, y2, y3, y4, s1, m1, m2, s2, d1, d2, sp,
     h1, h2, c1, mi1, mi2, c2, se1, se2] =>
    y1.isDigit && y2.isDigit && y3.isDigit && y4.isDigit && s1 == '-'
      && m1.isDigit && m2.isDigit && s2 == '-'
      && d1.isDigit && d2.isDigit && sp == ' '
      && h1.isDigit && h2.isDigit && c1 == ':'
      && mi1.isDigit && mi2.isDigit && c2 == ':'
      && se1.isDigit && se2.isDigit
  | _ => false

/-- `utils.formatDate`, `(date) => format(new Date(date), 'yyyy-MM-dd
HH:mm:ss')`, applied to a request value: `none` models the `RangeError`
date-fns throws on an Invalid Date (non-string input is out of the
model and also mapped to `none`). -/
def formatJ : JVal → Option String
  | .str s => (parseDate s).map formatDateStr
  | _ => none

/-- Is the character matched by the JavaScript regex class `\s`
(modelled for its ASCII part)? -/
def isJsSpace (c : Char) : Bool :=
  c == ' ' || c == '\t' || c == '\n' || c == '\r'

/-- Is the character kept by the regex replace
`input.replace(/[^\w\s-]/gi, '')`, i.e. in `\w` (ASCII alphanumerics
and underscore), `\s`, or a hyphen? -/
def keepChar (c : Char) : Bool :=
  c.isAlphanum || c == '_' || isJsSpace c || c == '-'

/-- JavaScript `String.prototype.trim`: strip leading and trailing
whitespace. -/
def trimList (l : List Char) : List Char :=
  ((l.dropWhile isJsSpace).reverse.dropWhile isJsSpace).reverse

/-- `utils.sanitizeInput`, `(input) =>
input.replace(/[^\w\s-]/gi, '').trim()`. -/
def sanitizeInput (input : String) : String :=
  String.mk (trimList (input.data.filter keepChar))

/-- `updates.item_description` flows through `utils.sanitizeInput`,
which calls `.replace` on it: a non-string receiver throws
(`none`). -/
def sanitizeJ : JVal → Option String
  | .str s => some (sanitizeInput s)
  | _ => none

/-- `anySuffix f t` holds when `f` holds of some suffix of `t`
(including `t` itself). -/
def anySuffix (f : List Char → Bool) : List Char → Bool
  | [] => f []
  | c :: ts => f (c :: ts) || anySuffix f ts

/-- One element of a SQL `LIKE` pattern: `%` (any run), `_` (any one
character), or a literal character. -/
inductive LikeTok where
  | any
  | one
  | lit (c : Char)
deriving Repr, DecidableEq

/-- Read a SQL `LIKE` pattern: `%` and `_` are wildcards and backslash
escapes the following pattern character.  (A trailing lone backslash,
which PostgreSQL rejects as an error, is kept as a literal here; it is
unreachable from the patterns the route builds.) -/
def parseLikePattern : List Char → List LikeTok
  | [] => []
  | c :: ps =>
    if c = '%' then .any :: parseLikePattern ps
    else if c = '_' then .one :: parseLikePattern ps
    else if c = '\\' then
      match ps with
      | [] => [.lit c]
      | q :: qs => .lit q :: parseLikePattern qs
    else .lit c :: parseLikePattern ps

/-- Match a tokenized `LIKE` pattern against a text. -/
def likeTokMatch : List LikeTok → List Char → Bool
  | [], t => t.isEmpty
  | .any :: ps, t => anySuffix (likeTokMatch ps) t
  | .one :: _, [] => false
  | .one :: ps, _ :: ts => likeTokMatch ps ts
  | .lit _ :: _, [] => false
  | .lit c :: ps, d :: ts => d == c && likeTokMatch ps ts

/-- SQL `LIKE` pattern matching. -/
def likeMatch (p t : List Char) : Bool := likeTokMatch (parseLikePattern p) t

/-- Lower-case a character list (PostgreSQL `ILIKE` is `LIKE` on the
lower-cased operands). -/
def lowerList (l : List Char) : List Char := l.map Char.toLower

/-- `cell ILIKE pattern` for a database cell: a NULL (or non-text)
cell compares to NULL, which is not true. -/
def cellIlike (pattern : String) : JVal → Bool
  | .str s => likeMatch (lowerList pattern.data) (lowerList s.data)
  | _ => false

/-- No `LIKE` wildcard (`%`, `_`) or escape (`\`) characters in the
list. -/
def noWildcards (l : List Char) : Prop :=
  ∀ c ∈ l, c ≠ '%' ∧ c ≠ '_' ∧ c ≠ '\\'

instance (l : List Char) : Decidable (noWildcards l) := by
  unfold noWildcards; infer_instance

/-- Case-insensitive substring occurrence of `needle` in a database
cell (false on NULL and non-text cells) — the reading of the filter
the specification describes. -/
def cellSubstrCI (needle : String) : JVal → Bool
  | .str h => decide (lowerList needle.data <:+: lowerList h.data)
  | _ => false

/-- One row of the `inventory` table (the columns touched by the
routes).  Text and date columns hold `JVal` cells exactly as the
handlers push them into the parameterized queries (`null` for SQL
NULL); `id` and `recorded_by` are the integer columns, `edited_by` is
NULL until a first update, `created_at` / `updated_at` are the
timestamp columns. -/
structure InventoryRecord where
  id : Nat
  delivery_date : JVal
  delivery_no : JVal
  supplier_name : JVal
  delivery_details : JVal
  stockman : JVal
  item_description : JVal
  item_code : JVal
  color : JVal
  qty : JVal
  storage : JVal
  counted_by : JVal
  date_counted : JVal
  recorded_by : Nat
  refill_status : JVal
  date_of_refill : JVal
  refill_by : JVal
  edited_by : Option Nat
  created_at : DateTime
  updated_at : DateTime
deriving Repr, DecidableEq

/-- The `inventory` table: its rows plus the sequence that assigns the
next fresh `id`. -/
structure Store where
  rows : List InventoryRecord
  nextId : Nat
deriving Repr, DecidableEq

/-- Invariant of the store's id sequence: every existing row's id is
below the next value the sequence will hand out. -/
def StoreWf (st : Store) : Prop := ∀ r ∈ st.rows, r.id < st.nextId

instance (st : Store) : Decidable (StoreWf st) := by
  unfold StoreWf; infer_instance

/-- The authenticated caller, as decoded from the JWT
(`req.user = {id, role}`). -/
structure User where
  id : Nat
  role : String
deriving Repr, DecidableEq

/-- `middlewares.authorize(roles)`: the request passes when
`roles.includes(req.user.role)`; otherwise the middleware answers
403 `Permission denied`. -/
def authorize (roles : List String) (u : User) : Bool :=
  roles.contains u.role

/-- Outcome of a route handler: `ok` with the JSON payload, or an
error status with the `error` message. -/
inductive ApiResult (α : Type) where
  | ok (value : α)
  | err (status : Nat) (msg : String)
deriving Repr, DecidableEq

/-- The `WHERE item_code ILIKE $1 OR delivery_no ILIKE $2` predicate of
`GET /inventory` with parameters `%search%`; an empty `search`
(`req.query.search || ''` and then `if (search)`) disables the
filter. -/
def rowMatches (search : String) (r : InventoryRecord) : Bool :=
  if search == "" then true
  else
    cellIlike ("%" ++ search ++ "%") r.item_code
      || cellIlike ("%" ++ search ++ "%") r.delivery_no

/-- `GET /inventory` (no role gate beyond authentication): the data
page is the filtered row set with `LIMIT`/`OFFSET` applied, and
`pagination.total` is `COUNT(*)` under the same `WHERE` clause with no
limit or offset.  `ORDER BY` only permutes the page and is not
modelled; the user argument records that the handler never inspects
the caller's role. -/
def getInventory (_u : User) (search : String) (limit offset : Nat)
    (st : Store) : ApiResult (List InventoryRecord × Nat) :=
  .ok ((st.rows.filter (rowMatches search)).drop offset |>.take limit,
       (st.rows.filter (rowMatches search)).length)

/-- The request body of `POST /inventory` before destructuring: each
field is `undef` when the key is absent. -/
structure CreatePayload where
  delivery_date : JVal := .undef
  delivery_no : JVal := .undef
  supplier_name : JVal := .undef
  delivery_details : JVal := .undef
  stockman : JVal := .undef
  item_description : JVal := .undef
  item_code : JVal := .undef
  color : JVal := .undef
  qty : JVal := .undef
  storage : JVal := .undef
  counted_by : JVal := .undef
  date_counted : JVal := .undef
deriving Repr, DecidableEq

/-- `POST /inventory`: admin gate, the destructuring defaults (`= null`
for every field except `item_description`), the guard
`!item_description || item_code === undefined` (the second disjunct is
decided against the destructured `item_code`, which the `= null`
default has already turned from `undefined` into `null`), then the
INSERT with `recorded_by = req.user.id` and the store-assigned id and
timestamps. -/
def postInventory (u : User) (body : CreatePayload) (now : DateTime)
    (st : Store) : ApiResult InventoryRecord × Store :=
  if !authorize ["admin"] u then
    (.err 403 "Permission denied", st)
  else
    let delivery_date := dflt body.delivery_date .null
    let delivery_no := dflt body.delivery_no .null
    let supplier_name := dflt body.supplier_name .null
    let delivery_details := dflt body.delivery_details .null
    let stockman := dflt body.stockman .null
    let item_description := body.item_description
    let item_code := dflt body.item_code .null
    let color := dflt body.color .null
    let qty := dflt body.qty .null
    let storage := dflt body.storage .null
    let counted_by := dflt body.counted_by .null
    let date_counted := dflt body.date_counted .null
    if jfalsy item_description || item_code == .undef then
      (.err 400 "Item description and quantity are required", st)
    else
      let row : InventoryRecord :=
        { id := st.nextId
          delivery_date := delivery_date
          delivery_no := delivery_no
          supplier_name := supplier_name
          delivery_details := delivery_details
          stockman := stockman
          item_description := item_description
          item_code := item_code
          color := color
          qty := qty
          storage := storage
          counted_by := counted_by
          date_counted := date_counted
          recorded_by := u.id
          refill_status := .null
          date_of_refill := .null
          refill_by := .null
          edited_by := none
          created_at := now
          updated_at := now }
      (.ok row, { rows := st.rows ++ [row], nextId := st.nextId + 1 })

/-- The request body of `PUT /inventory/:id` (`req.body` read directly,
so an absent key is `undefined`). -/
structure UpdatePayload where
  delivery_date : JVal := .undef
  delivery_no : JVal := .undef
  supplier_name : JVal := .undef
  delivery_details : JVal := .undef
  stockman : JVal := .undef
  item_description : JVal := .undef
  item_code : JVal := .undef
  color : JVal := .undef
  qty : JVal := .undef
  storage : JVal := .undef
  date_counted : JVal := .undef
  counted_by : JVal := .undef
  refill_status : JVal := .undef
  date_of_refill : JVal := .undef
  refill_by : JVal := .undef
deriving Repr, DecidableEq

/-- The dynamically built `SET` clause of the UPDATE: for each column,
`none` when no clause was pushed for it, `some v` when
`column = v` was pushed. -/
structure SetClause where
  delivery_date : Option JVal := none
  delivery_no : Option JVal := none
  supplier_name : Option JVal := none
  delivery_details : Option JVal := none
  stockman : Option JVal := none
  item_description : Option JVal := none
  item_code : Option JVal := none
  color : Option JVal := none
  qty : Option JVal := none
  storage : Option JVal := none
  date_counted : Option JVal := none
  counted_by : Option JVal := none
  refill_status : Option JVal := none
  date_of_refill : Option JVal := none
  refill_by : Option JVal := none
deriving Repr, DecidableEq

/-- `if (updates.delivery_date !== undefined) push(updates.delivery_date
? utils.formatDate(updates.delivery_date) : null)`; the outer `none`
is the formatDate throw. -/
def setDeliveryDate (p : UpdatePayload) : Option (Option JVal) :=
  if p.delivery_date = .undef then some none
  else if jtruthy p.delivery_date then
    (formatJ p.delivery_date).map fun s => some (.str s)
  else some (some .null)

/-- `if (updates.item_description) push(utils.sanitizeInput(
updates.item_description))`. -/
def setItemDescription (p : UpdatePayload) : Option (Option JVal) :=
  if jtruthy p.item_description then
    (sanitizeJ p.item_description).map fun s => some (.str s)
  else some none

/-- `if (updates.date_counted) push(utils.formatDate(
updates.date_counted))`. -/
def setDateCounted (p : UpdatePayload) : Option (Option JVal) :=
  if jtruthy p.date_counted then
    (formatJ p.date_counted).map fun s => some (.str s)
  else some none

/-- `if (updates.date_of_refill) push(utils.formatDate(
updates.date_of_refill))`. -/
def setDateOfRefill (p : UpdatePayload) : Option (Option JVal) :=
  if jtruthy p.date_of_refill then
    (formatJ p.date_of_refill).map fun s => some (.str s)
  else some none

/-- The whole dynamic `SET` clause of `PUT /inventory/:id`; `none` when
one of the `utils.formatDate` / `utils.sanitizeInput` calls made while
pushing parameters throws. -/
def buildSetClause (p : UpdatePayload) : Option SetClause :=
  match setDeliveryDate p, setItemDescription p,
        setDateCounted p, setDateOfRefill p with
  | some dd, some idesc, some dc, some dr =>
    some
      { delivery_date := dd
        delivery_no :=
          if p.delivery_no = .undef then none
          else some (jOrNull p.delivery_no)
        supplier_name :=
          if p.supplier_name = .undef then none
          else some (jOrNull p.supplier_name)
        delivery_details :=
          if p.delivery_details = .undef then none
          else some (jOrNull p.delivery_details)
        stockman :=
          if p.stockman = .undef then none
          else some (jOrNull p.stockman)
        item_description := idesc
        item_code :=
          if p.item_code = .undef then none
          else some (jOrNull p.item_code)
        color := if p.color = .undef then none else some p.color
        qty := if p.qty = .undef then none else some p.qty
        storage := if p.storage = .undef then none else some p.storage
        date_counted := dc
        counted_by :=
          if p.counted_by = .undef then none
          else some (jOrNull p.counted_by)
        refill_status :=
          if jtruthy p.refill_status then some p.refill_status else none
        date_of_refill := dr
        refill_by :=
          if p.refill_by = .undef then none
          else some (jOrNull p.refill_by) }
  | _, _, _, _ => none

/-- Apply the `SET` clause to the matched row, together with the
unconditional `updated_at = CURRENT_TIMESTAMP` and
`edited_by = $user`. -/
def applySet (sc : SetClause) (uid : Nat) (now : DateTime)
    (r : InventoryRecord) : InventoryRecord :=
  { r with
    delivery_date := sc.delivery_date.getD r.delivery_date
    delivery_no := sc.delivery_no.getD r.delivery_no
    supplier_name := sc.supplier_name.getD r.supplier_name
    delivery_details := sc.delivery_details.getD r.delivery_details
    stockman := sc.stockman.getD r.stockman
    item_description := sc.item_description.getD r.item_description
    item_code := sc.item_code.getD r.item_code
    color := sc.color.getD r.color
    qty := sc.qty.getD r.qty
    storage := sc.storage.getD r.storage
    date_counted := sc.date_counted.getD r.date_counted
    counted_by := sc.counted_by.getD r.counted_by
    refill_status := sc.refill_status.getD r.refill_status
    date_of_refill := sc.date_of_refill.getD r.date_of_refill
    refill_by := sc.refill_by.getD r.refill_by
    edited_by := some uid
    updated_at := now }

/-- `PUT /inventory/:id`: admin gate; the guard
`!updates.item_description && updates.item_code === undefined` → 400;
the `SET` parameters are built (a formatDate throw lands in the catch
block → 500 `Failed to update item`); then the single-row UPDATE, with
404 when no row has the id. -/
def putInventory (u : User) (id : Nat) (updates : UpdatePayload)
    (now : DateTime) (st : Store) : ApiResult InventoryRecord × Store :=
  if !authorize ["admin"] u then
    (.err 403 "Permission denied", st)
  else if jfalsy updates.item_description && updates.item_code == .undef then
    (.err 400 "Item description or quantity must be provided", st)
  else
    match buildSetClause updates with
    | none => (.err 500 "Failed to update item", st)
    | some sc =>
      match st.rows.find? (fun r => r.id == id) with
      | none => (.err 404 "Item not found", st)
      | some r =>
        let r' := applySet sc u.id now r
        (.ok r',
         { st with rows := st.rows.map fun x => if x.id == id then r' else x })

/-- `DELETE /inventory/:id`: admin gate; 404 when no row matched,
otherwise the row is removed. -/
def deleteInventory (u : User) (id : Nat) (st : Store) :
    ApiResult String × Store :=
  if !authorize ["admin"] u then
    (.err 403 "Permission denied", st)
  else if st.rows.any (fun r => r.id == id) then
    (.ok "Item deleted successfully",
     { st with rows := st.rows.filter fun r => !(r.id == id) })
  else
    (.err 404 "Item not found", st)

/-- `POST /inventory/:id/duplicate`: admin gate; 404 when the source id
does not exist; otherwise a new row is inserted copying only
`item_description`, `qty`, `color`, `storage` from the source, with
`counted_by`, `recorded_by`, `edited_by` all the caller's id,
`date_counted = utils.formatDate(new Date())`, `refill_status = ''`,
fresh timestamps, and every other column left to its NULL default. -/
def duplicateInventory (u : User) (id : Nat) (now : DateTime)
    (st : Store) : ApiResult InventoryRecord × Store :=
  if !authorize ["admin"] u then
    (.err 403 "Permission denied", st)
  else
    match st.rows.find? (fun r => r.id == id) with
    | none => (.err 404 "Item not found", st)
    | some originalItem =>
      let row : InventoryRecord :=
        { id := st.nextId
          delivery_date := .null
          delivery_no := .null
          supplier_name := .null
          delivery_details := .null
          stockman := .null
          item_description := originalItem.item_description
          item_code := .null
          color := originalItem.color
          qty := originalItem.qty
          storage := originalItem.storage
          counted_by := .num u.id
          date_counted := .str (formatDateStr now)
          recorded_by := u.id
          refill_status := .str ""
          date_of_refill := .null
          refill_by := .null
          edited_by := some u.id
          created_at := now
          updated_at := now }
      (.ok row, { rows := st.rows ++ [row], nextId := st.nextId + 1 })

/-- `POST /inventory/:id/refill`: admin gate; 400 `Refill status is
required` when `refill_status` is falsy; otherwise the row is updated
with the given `refill_status` as-is,
`date_of_refill = utils.formatDate(new Date())`, `refill_by` and
`edited_by` the caller's id, and a fresh `updated_at`; 404 when no row
has the id. -/
def refillInventory (u : User) (id : Nat) (refill_status : JVal)
    (now : DateTime) (st : Store) : ApiResult InventoryRecord × Store :=
  if !authorize ["admin"] u then
    (.err 403 "Permission denied", st)
  else if jfalsy refill_status then
    (.err 400 "Refill status is required", st)
  else
    match st.rows.find? (fun r => r.id == id) with
    | none => (.err 404 "Item not found", st)
    | some r =>
      let r' : InventoryRecord :=
        { r with
          refill_status := refill_status
          date_of_refill := .str (formatDateStr now)
          refill_by := .num u.id
          edited_by := some u.id
          updated_at := now }
      (.ok r',
       { st with rows := st.rows.map fun x => if x.id == id then r' else x })

/-! ### Concrete fixtures used by witnesses and counterexamples -/

/-- A creation timestamp for the sample row. -/
def dt0 : DateTime := ⟨2024, 1, 1, 0, 0, 0⟩

/-- The current time of the sample requests. -/
def now1 : DateTime := ⟨2024, 5, 10, 12, 0, 0⟩

/-- A sample stored row (id 1, `supplier_name "Acme"`,
`item_code "ABC123"`). -/
def rec1 : InventoryRecord :=
  { id := 1
    delivery_date := .null
    delivery_no := .str "D-1"
    supplier_name := .str "Acme"
    delivery_details := .null
    stockman := .null
    item_description := .str "Blue Widget"
    item_code := .str "ABC123"
    color := .null
    qty := .num 10
    storage := .null
    counted_by := .null
    date_counted := .null
    recorded_by := 7
    refill_status := .null
    date_of_refill := .null
    refill_by := .null
    edited_by := none
    created_at := dt0
    updated_at := dt0 }

/-- A store holding just `rec1`, next id 2. -/
def store1 : Store := { rows := [rec1], nextId := 2 }

/-- An admin caller. -/
def adminUser : User := ⟨9, "admin"⟩

/-- A non-admin caller. -/
def plainUser : User := ⟨3, "user"⟩

/-- The accepted variant of the claim's example patch: `qty` plus the
`item_code` the guard requires. -/
def patchQty5 : UpdatePayload := { qty := .num 5, item_code := .str "ABC123" }

/-- The row produced by applying `patchQty5` to `rec1`. -/
def rec1Qty5 : InventoryRecord :=
  { rec1 with
    qty := .num 5
    item_code := .str "ABC123"
    edited_by := some 9
    updated_at := now1 }

/-- The row produced by updating only `item_code` on `rec1`. -/
def rec1CodeZ : InventoryRecord :=
  { rec1 with item_code := .str "Z", edited_by := some 9, updated_at := now1 }

/-- The creation payload of the witness: non-empty description, absent
`item_code`, and a non-numeric `qty`. -/
def createBody1 : CreatePayload :=
  { item_description := .str "Blue Widget", qty := .str "not-a-number" }

/-- The row produced by updating `item_description` to `"x_y"` on
`rec1`: the underscore survives sanitization. -/
def rec1Underscore : InventoryRecord :=
  { rec1 with
    item_description := .str "x_y"
    edited_by := some 9
    updated_at := now1 }

/-- The row produced by updating `item_description` to `"He_llo!"` on
`rec1`: the `!` is stripped, the underscore kept. -/
def rec1Hello : InventoryRecord :=
  { rec1 with
    item_description := .str "He_llo"
    edited_by := some 9
    updated_at := now1 }

/-- The update payload of C4's witness: a parsable `delivery_date` plus
the `item_code` the guard requires. -/
def patchDated : UpdatePayload :=
  { item_code := .str "K", delivery_date := .str "2024-05-10" }

/-- The row produced by applying `patchDated` to `rec1`. -/
def rec1Dated : InventoryRecord :=
  { rec1 with
    delivery_date := .str "2024-05-10 00:00:00"
    item_code := .str "K"
    edited_by := some 9
    updated_at := now1 }


/-! ### Helper lemmas about the handlers -/

/-- `["admin"].includes(role)` is just equality with `"admin"`. -/
theorem authorize_admin (u : User) :
    authorize ["admin"] u = (u.role == "admin") := by
  simp only [authorize, List.contains, List.elem_cons, List.elem_nil]
  cases h : u.role == "admin" <;> simp_all

/-- A successful `PUT` means: the `SET` parameters were built without a
throw, a row with the id was found, and the response row is that row
with the clause applied. -/
theorem putInventory_ok {u : User} {id : Nat} {p : UpdatePayload}
    {now : DateTime} {st : Store} {r' : InventoryRecord}
    (h : (putInventory u id p now st).1 = .ok r') :
    ∃ sc r, buildSetClause p = some sc
      ∧ st.rows.find? (fun x => x.id == id) = some r
      ∧ r' = applySet sc u.id now r := by
  unfold putInventory at h
  split at h
  · simp at h
  · split at h
    · simp at h
    · split at h
      · simp at h
      · rename_i sc hsc
        split at h
        · simp at h
        · rename_i r hr
          simp at h
          exact ⟨sc, r, hsc, hr, h.symm⟩

/-- Unpack a successfully built `SET` clause into the four fallible
field clauses and the record literal. -/
theorem buildSetClause_some {p : UpdatePayload} {sc : SetClause}
    (hsc : buildSetClause p = some sc) :
    ∃ dd idesc dc dr,
      setDeliveryDate p = some dd ∧ setItemDescription p = some idesc
      ∧ setDateCounted p = some dc ∧ setDateOfRefill p = some dr
      ∧ sc.delivery_date = dd ∧ sc.item_description = idesc
      ∧ sc.date_counted = dc ∧ sc.date_of_refill = dr
      ∧ sc.refill_status
          = (if jtruthy p.refill_status then some p.refill_status else none) := by
  unfold buildSetClause at hsc
  split at hsc
  · rename_i dd idesc dc dr hdd hidesc hdc hdr
    injection hsc with hsc
    subst hsc
    exact ⟨dd, idesc, dc, dr, hdd, hidesc, hdc, hdr, rfl, rfl, rfl, rfl, rfl⟩
  · simp at hsc

/-- Keys absent from the payload contribute no `SET` clause. -/
theorem buildSetClause_undef {p : UpdatePayload} {sc : SetClause}
    (hsc : buildSetClause p = some sc) :
    (p.delivery_date = .undef → sc.delivery_date = none)
    ∧ (p.delivery_no = .undef → sc.delivery_no = none)
    ∧ (p.supplier_name = .undef → sc.supplier_name = none)
    ∧ (p.delivery_details = .undef → sc.delivery_details = none)
    ∧ (p.stockman = .undef → sc.stockman = none)
    ∧ (p.item_description = .undef → sc.item_description = none)
    ∧ (p.item_code = .undef → sc.item_code = none)
    ∧ (p.color = .undef → sc.color = none)
    ∧ (p.qty = .undef → sc.qty = none)
    ∧ (p.storage = .undef → sc.storage = none)
    ∧ (p.date_counted = .undef → sc.date_counted = none)
    ∧ (p.counted_by = .undef → sc.counted_by = none)
    ∧ (p.refill_status = .undef → sc.refill_status = none)
    ∧ (p.date_of_refill = .undef → sc.date_of_refill = none)
    ∧ (p.refill_by = .undef → sc.refill_by = none) := by
  unfold buildSetClause at hsc
  split at hsc
  · rename_i dd idesc dc dr hdd hidesc hdc hdr
    injection hsc with hsc
    subst hsc
    refine ⟨?_, ?_, ?_, ?_, ?_, ?_, ?_, ?_, ?_, ?_, ?_, ?_, ?_, ?_, ?_⟩ <;>
      intro h <;>
      simp_all [setDeliveryDate, setItemDescription, setDateCounted,
        setDateOfRefill, jtruthy, jfalsy]
  · simp at hsc

/-- A successful refill means: a row with the id was found and the
response row is that row with the refill fields and the audit fields
overwritten. -/
theorem refillInventory_ok {u : User} {id : Nat} {rs : JVal}
    {now : DateTime} {st : Store} {r' : InventoryRecord}
    (h : (refillInventory u id rs now st).1 = .ok r') :
    ∃ r, st.rows.find? (fun x => x.id == id) = some r
      ∧ r' = { r with
               refill_status := rs
               date_of_refill := .str (formatDateStr now)
               refill_by := .num u.id
               edited_by := some u.id
               updated_at := now } := by
  unfold refillInventory at h
  split at h
  · simp at h
  · split at h
    · simp at h
    · split at h
      · simp at h
      · rename_i r hr
        simp at h
        exact ⟨r, hr, h.symm⟩

/-! ### Claim C1 -/

/-- C1 (corrected): the claim says an empty patch succeeds and still
overwrites `updated_at`/`edited_by`; in fact the guard
`!updates.item_description && updates.item_code === undefined` rejects
the empty payload, so for an admin caller `update(id, {})` fails with
400 and leaves the store (every field, audit fields included)
unchanged. -/
theorem update_empty_patch_rejected (u : User) (id : Nat) (now : DateTime)
    (st : Store) (hrole : u.role = "admin") :
    putInventory u id {} now st
      = (.err 400 "Item description or quantity must be provided", st) := by
  have ha : authorize ["admin"] u = true := by rw [authorize_admin, hrole]; rfl
  unfold putInventory
  rw [ha]
  simp [jfalsy]

/-- Witness for C1's amended theorem: the concrete empty patch on the
sample store. -/
theorem update_empty_patch_rejected_witness :
    adminUser.role = "admin"
    ∧ putInventory adminUser 1 {} now1 store1
        = (.err 400 "Item description or quantity must be provided", store1) :=
  ⟨rfl, update_empty_patch_rejected adminUser 1 now1 store1 rfl⟩

/-- Counterexample to C1 as stated: on the sample store, the empty
patch does not succeed — it returns 400 and the store is unchanged. -/
theorem update_empty_patch_cex :
    putInventory adminUser 1 {} now1 store1
      = (.err 400 "Item description or quantity must be provided", store1) := by
  decide

/-! ### Claim C2 -/

/-- C2 (corrected): for every payload the route accepts, `update` is a
sparse patch — every domain field whose key is absent from the payload
keeps its stored value.  (The claim's example `update(id, {qty: 5})` is
itself rejected by the guard, see the counterexample.) -/
theorem update_sparse_patch_frame (u : User) (id : Nat) (p : UpdatePayload)
    (now : DateTime) (st : Store) (r r' : InventoryRecord)
    (hfind : st.rows.find? (fun x => x.id == id) = some r)
    (hok : (putInventory u id p now st).1 = .ok r') :
    (p.delivery_date = .undef → r'.delivery_date = r.delivery_date)
    ∧ (p.delivery_no = .undef → r'.delivery_no = r.delivery_no)
    ∧ (p.supplier_name = .undef → r'.supplier_name = r.supplier_name)
    ∧ (p.delivery_details = .undef → r'.delivery_details = r.delivery_details)
    ∧ (p.stockman = .undef → r'.stockman = r.stockman)
    ∧ (p.item_description = .undef → r'.item_description = r.item_description)
    ∧ (p.item_code = .undef → r'.item_code = r.item_code)
    ∧ (p.color = .undef → r'.color = r.color)
    ∧ (p.qty = .undef → r'.qty = r.qty)
    ∧ (p.storage = .undef → r'.storage = r.storage)
    ∧ (p.date_counted = .undef → r'.date_counted = r.date_counted)
    ∧ (p.counted_by = .undef → r'.counted_by = r.counted_by)
    ∧ (p.refill_status = .undef → r'.refill_status = r.refill_status)
    ∧ (p.date_of_refill = .undef → r'.date_of_refill = r.date_of_refill)
    ∧ (p.refill_by = .undef → r'.refill_by = r.refill_by) := by
  obtain ⟨sc, r0, hsc, hfind0, hr'⟩ := putInventory_ok hok
  rw [hfind] at hfind0
  injection hfind0 with h0
  subst h0
  obtain ⟨h1, h2, h3, h4, h5, h6, h7, h8, h9, h10, h11, h12, h13, h14, h15⟩ :=
    buildSetClause_undef hsc
  subst hr'
  exact ⟨fun h => by simp [applySet, h1 h], fun h => by simp [applySet, h2 h],
    fun h => by simp [applySet, h3 h], fun h => by simp [applySet, h4 h],
    fun h => by simp [applySet, h5 h], fun h => by simp [applySet, h6 h],
    fun h => by simp [applySet, h7 h], fun h => by simp [applySet, h8 h],
    fun h => by simp [applySet, h9 h], fun h => by simp [applySet, h10 h],
    fun h => by simp [applySet, h11 h], fun h => by simp [applySet, h12 h],
    fun h => by simp [applySet, h13 h], fun h => by simp [applySet, h14 h],
    fun h => by simp [applySet, h15 h]⟩


/-- Witness for C2's amended theorem: updating only `qty` (plus the
`item_code` the guard requires) leaves `supplier_name = "Acme"`. -/
theorem update_sparse_patch_frame_witness :
    (store1.rows.find? (fun x => x.id == 1) = some rec1
      ∧ (putInventory adminUser 1 patchQty5 now1 store1).1 = .ok rec1Qty5)
    ∧ (patchQty5.supplier_name = .undef
        → rec1Qty5.supplier_name = rec1.supplier_name) :=
  ⟨⟨by decide, by decide⟩,
   (update_sparse_patch_frame adminUser 1 patchQty5 now1 store1 rec1 rec1Qty5
      (by decide) (by decide)).2.2.1⟩

/-- Counterexample to C2 as stated: on a record with
`supplier_name = "Acme"`, the call `update(id, {qty: 5})` does not
succeed — the guard rejects it with 400. -/
theorem update_qty_only_rejected_cex :
    rec1.supplier_name = .str "Acme"
    ∧ putInventory adminUser 1 { qty := .num 5 } now1 store1
        = (.err 400 "Item description or quantity must be provided", store1) := by
  decide

/-! ### Claim C6 -/

/-- C6 (confirmed): every successful `update` and every successful
`setRefillStatus` overwrites `updated_at` with the current time and
`edited_by` with the caller's id, whatever else the payload held. -/
theorem update_audit_fields :
    (∀ (u : User) (id : Nat) (p : UpdatePayload) (now : DateTime) (st : Store)
       (r' : InventoryRecord), (putInventory u id p now st).1 = .ok r' →
       r'.updated_at = now ∧ r'.edited_by = some u.id)
    ∧ (∀ (u : User) (id : Nat) (rs : JVal) (now : DateTime) (st : Store)
       (r' : InventoryRecord), (refillInventory u id rs now st).1 = .ok r' →
       r'.updated_at = now ∧ r'.edited_by = some u.id) := by
  constructor
  · intro u id p now st r' hok
    obtain ⟨sc, r, _, _, hr'⟩ := putInventory_ok hok
    subst hr'
    exact ⟨rfl, rfl⟩
  · intro u id rs now st r' hok
    obtain ⟨r, _, hr'⟩ := refillInventory_ok hok
    subst hr'
    exact ⟨rfl, rfl⟩

/-- Witness for C6: a concrete successful update carries the fresh
`updated_at` and the caller's id in `edited_by`. -/
theorem update_audit_fields_witness :
    ((putInventory adminUser 1 { item_code := .str "Z" } now1 store1).1
        = .ok rec1CodeZ)
    ∧ (rec1CodeZ.updated_at = now1 ∧ rec1CodeZ.edited_by = some adminUser.id) :=
  ⟨by decide,
   update_audit_fields.1 adminUser 1 { item_code := .str "Z" } now1 store1
     rec1CodeZ (by decide)⟩

/-! ### Claim C9 -/

/-- C9 (confirmed): a caller whose role is not `admin` gets 403
`Permission denied` from create, update, delete, duplicate and
setRefillStatus, with the store unchanged, while `list` answers
normally for a caller of any role. -/
theorem role_gate_403 (u : User) (hr : u.role ≠ "admin") :
    (∀ body now st, postInventory u body now st
        = (.err 403 "Permission denied", st))
    ∧ (∀ id p now st, putInventory u id p now st
        = (.err 403 "Permission denied", st))
    ∧ (∀ id st, deleteInventory u id st = (.err 403 "Permission denied", st))
    ∧ (∀ id now st, duplicateInventory u id now st
        = (.err 403 "Permission denied", st))
    ∧ (∀ id rs now st, refillInventory u id rs now st
        = (.err 403 "Permission denied", st))
    ∧ (∀ search limit offset st, getInventory u search limit offset st
        = .ok ((st.rows.filter (rowMatches search)).drop offset |>.take limit,
               (st.rows.filter (rowMatches search)).length)) := by
  have ha : authorize ["admin"] u = false := by
    rw [authorize_admin]
    exact beq_eq_false_iff_ne.mpr hr
  refine ⟨?_, ?_, ?_, ?_, ?_, ?_⟩ <;> intros <;>
    simp [postInventory, putInventory, deleteInventory, duplicateInventory,
      refillInventory, getInventory, ha]

/-- Witness for C9: the concrete non-admin caller is rejected by
create. -/
theorem role_gate_403_witness :
    plainUser.role ≠ "admin"
    ∧ postInventory plainUser {} now1 store1
        = (.err 403 "Permission denied", store1) :=
  ⟨by decide, (role_gate_403 plainUser (by decide)).1 {} now1 store1⟩

/-! ### Claim C10 -/

/-- C10 (confirmed): neither `setRefillStatus` nor `update` checks
`refill_status` against the enumerated set — any non-empty string is
persisted verbatim by the refill route on an existing id, and any
accepted update payload carrying a non-empty `refill_status` writes it
verbatim as well. -/
theorem refill_status_unvalidated :
    (∀ (u : User) (id : Nat) (s : String) (now : DateTime) (st : Store)
       (r : InventoryRecord), u.role = "admin" → s ≠ "" →
       st.rows.find? (fun x => x.id == id) = some r →
       (refillInventory u id (.str s) now st).1
         = .ok { r with
                 refill_status := .str s
                 date_of_refill := .str (formatDateStr now)
                 refill_by := .num u.id
                 edited_by := some u.id
                 updated_at := now })
    ∧ (∀ (u : User) (id : Nat) (p : UpdatePayload) (now : DateTime)
       (st : Store) (r' : InventoryRecord) (s : String),
       p.refill_status = .str s → s ≠ "" →
       (putInventory u id p now st).1 = .ok r' →
       r'.refill_status = .str s) := by
  constructor
  · intro u id s now st r hrole hs hfind
    have ha : authorize ["admin"] u = true := by rw [authorize_admin, hrole]; rfl
    unfold refillInventory
    rw [ha]
    simp [jfalsy, hs, hfind]
  · intro u id p now st r' s hps hs hok
    obtain ⟨sc, r, hsc, hfind, hr'⟩ := putInventory_ok hok
    obtain ⟨dd, idesc, dc, dr, _, _, _, _, _, _, _, _, hrs⟩ :=
      buildSetClause_some hsc
    subst hr'
    simp [applySet, hrs, jtruthy, jfalsy, hps, hs]

/-- Witness for C10: `"BANANA"`, which is outside the documented
enumeration, is persisted by the refill route on the sample store. -/
theorem refill_status_unvalidated_witness :
    (adminUser.role = "admin" ∧ "BANANA" ≠ ""
      ∧ store1.rows.find? (fun x => x.id == 1) = some rec1)
    ∧ (refillInventory adminUser 1 (.str "BANANA") now1 store1).1
        = .ok { rec1 with
                refill_status := .str "BANANA"
                date_of_refill := .str (formatDateStr now1)
                refill_by := .num adminUser.id
                edited_by := some adminUser.id
                updated_at := now1 } :=
  ⟨⟨rfl, by decide, by decide⟩,
   refill_status_unvalidated.1 adminUser 1 "BANANA" now1 store1 rec1 rfl
     (by decide) (by decide)⟩

/-! ### Claim C3 -/

/-- After the destructuring default `item_code = null`, the
destructured `item_code` can no longer be `undefined`, so the guard's
`item_code === undefined` disjunct is always false. -/
theorem dflt_null_ne_undef (v : JVal) : (dflt v .null == JVal.undef) = false := by
  unfold dflt
  split
  · rfl
  · rename_i hne
    exact beq_eq_false_iff_ne.mpr hne

/-- C3 (confirmed): for an admin caller and a payload whose
`item_description` is missing, null or a string, `create` fails with
400 exactly when `item_description` is absent (missing or null) or
empty, and for every non-empty `item_description` it inserts a row
whose `recorded_by` is the caller's id — with the `qty` value passed
through with no range or type validation (the theorem quantifies over
every `qty` value, zero, negative and non-numeric included). -/
theorem create_requires_item_description (u : User) (body : CreatePayload)
    (now : DateTime) (st : Store) (hrole : u.role = "admin")
    (htext : ∀ n : Int, body.item_description ≠ .num n) :
    ((postInventory u body now st).1
        = .err 400 "Item description and quantity are required"
      ↔ (body.item_description = .undef ∨ body.item_description = .null
           ∨ body.item_description = .str ""))
    ∧ (∀ s, body.item_description = .str s → s ≠ "" →
        ∃ r st', postInventory u body now st = (.ok r, st')
          ∧ r.recorded_by = u.id ∧ r.qty = dflt body.qty .null
          ∧ r.id = st.nextId) := by
  have ha : authorize ["admin"] u = true := by rw [authorize_admin, hrole]; rfl
  constructor
  · unfold postInventory
    rw [ha]
    simp only [Bool.not_true, Bool.false_eq_true, if_false,
      dflt_null_ne_undef, Bool.or_false]
    cases hbd : body.item_description with
    | undef => simp [jfalsy]
    | null => simp [jfalsy]
    | num n => exact absurd hbd (htext n)
    | str s =>
      by_cases hs : s = ""
      · subst hs; simp [jfalsy]
      · simp [jfalsy, hs]
  · intro s hbd hs
    have hguard :
        (jfalsy body.item_description
          || (dflt body.item_code .null == JVal.undef)) = false := by
      simp [jfalsy, hbd, hs, dflt_null_ne_undef]
    unfold postInventory
    rw [ha]
    simp only [Bool.not_true, Bool.false_eq_true, if_false, hguard]
    exact ⟨_, _, rfl, rfl, rfl, rfl⟩

/-- Witness for C3: the concrete creation succeeds, records the caller
id, and passes the non-numeric `qty` through unvalidated. -/
theorem create_requires_item_description_witness :
    (adminUser.role = "admin"
      ∧ (∀ n : Int, createBody1.item_description ≠ .num n)
      ∧ createBody1.item_description = .str "Blue Widget"
      ∧ "Blue Widget" ≠ "")
    ∧ (∃ r st', postInventory adminUser createBody1 now1 store1 = (.ok r, st')
        ∧ r.recorded_by = adminUser.id ∧ r.qty = dflt createBody1.qty .null
        ∧ r.id = store1.nextId) :=
  ⟨⟨rfl, fun _ h => JVal.noConfusion h, rfl, by decide⟩,
   (create_requires_item_description adminUser createBody1 now1 store1 rfl
      (fun _ h => JVal.noConfusion h)).2 "Blue Widget" rfl (by decide)⟩

/-! ### Claim C8 -/

/-- C8 (confirmed): duplicating an existing row inserts a row with a
fresh id that copies exactly `item_description`, `qty`, `color`,
`storage`; sets `counted_by`, `recorded_by`, `edited_by` to the
caller; stamps `date_counted` with the current date; sets
`refill_status` to the empty string; and leaves every delivery,
supplier and refill column NULL. -/
theorem duplicate_semantics (u : User) (id : Nat) (now : DateTime)
    (st : Store) (src : InventoryRecord) (hrole : u.role = "admin")
    (hwf : StoreWf st)
    (hfind : st.rows.find? (fun x => x.id == id) = some src) :
    ∃ r' st', duplicateInventory u id now st = (.ok r', st')
      ∧ r'.id ≠ src.id
      ∧ r'.item_description = src.item_description
      ∧ r'.qty = src.qty ∧ r'.color = src.color ∧ r'.storage = src.storage
      ∧ r'.counted_by = .num u.id ∧ r'.recorded_by = u.id
      ∧ r'.edited_by = some u.id
      ∧ r'.date_counted = .str (formatDateStr now)
      ∧ r'.refill_status = .str ""
      ∧ r'.delivery_date = .null ∧ r'.delivery_no = .null
      ∧ r'.supplier_name = .null ∧ r'.delivery_details = .null
      ∧ r'.stockman = .null ∧ r'.item_code = .null
      ∧ r'.date_of_refill = .null ∧ r'.refill_by = .null := by
  have ha : authorize ["admin"] u = true := by rw [authorize_admin, hrole]; rfl
  have hid : src.id < st.nextId := hwf src (List.mem_of_find?_eq_some hfind)
  unfold duplicateInventory
  rw [ha]
  simp only [Bool.not_true, Bool.false_eq_true, if_false, hfind]
  exact ⟨_, _, rfl, (Nat.ne_of_lt hid).symm, rfl, rfl, rfl, rfl, rfl, rfl,
    rfl, rfl, rfl, rfl, rfl, rfl, rfl, rfl, rfl, rfl, rfl⟩

/-- Witness for C8: duplicating the sample row. -/
theorem duplicate_semantics_witness :
    (adminUser.role = "admin" ∧ StoreWf store1
      ∧ store1.rows.find? (fun x => x.id == 1) = some rec1)
    ∧ (∃ r' st', duplicateInventory adminUser 1 now1 store1 = (.ok r', st')
        ∧ r'.id ≠ rec1.id
        ∧ r'.item_description = rec1.item_description
        ∧ r'.qty = rec1.qty ∧ r'.color = rec1.color ∧ r'.storage = rec1.storage
        ∧ r'.counted_by = .num adminUser.id ∧ r'.recorded_by = adminUser.id
        ∧ r'.edited_by = some adminUser.id
        ∧ r'.date_counted = .str (formatDateStr now1)
        ∧ r'.refill_status = .str ""
        ∧ r'.delivery_date = .null ∧ r'.delivery_no = .null
        ∧ r'.supplier_name = .null ∧ r'.delivery_details = .null
        ∧ r'.stockman = .null ∧ r'.item_code = .null
        ∧ r'.date_of_refill = .null ∧ r'.refill_by = .null) :=
  ⟨⟨rfl, by decide, by decide⟩,
   duplicate_semantics adminUser 1 now1 store1 rec1 rfl (by decide) (by decide)⟩

/-! ### LIKE versus substring -/

theorem toLower_not_wild {c : Char} (h1 : c ≠ '%') (h2 : c ≠ '_')
    (h3 : c ≠ '\\') :
    c.toLower ≠ '%' ∧ c.toLower ≠ '_' ∧ c.toLower ≠ '\\' := by
  unfold Char.toLower
  simp only []
  by_cases hcond : c.toNat ≥ 65 ∧ c.toNat ≤ 90
  · rw [if_pos hcond]
    obtain ⟨hl, hr⟩ := hcond
    set n := c.toNat with hn
    refine ⟨?_, ?_, ?_⟩ <;> intro he <;>
      (interval_cases n <;> exact absurd he (by decide))
  · rw [if_neg hcond]
    exact ⟨h1, h2, h3⟩

theorem lowerList_wild_free {l : List Char} (h : noWildcards l) :
    noWildcards (lowerList l) := by
  intro c hc
  obtain ⟨c', hc', rfl⟩ := List.mem_map.mp hc
  obtain ⟨a, b, d⟩ := h c' hc'
  exact toLower_not_wild a b d

theorem anySuffix_iff (f : List Char → Bool) (t : List Char) :
    anySuffix f t = true ↔ ∃ ts, ts <:+ t ∧ f ts = true := by
  induction t with
  | nil => simp [anySuffix, List.suffix_nil]
  | cons c ts ih =>
    simp only [anySuffix, Bool.or_eq_true, ih]
    constructor
    · rintro (h | ⟨l, hl, hf⟩)
      · exact ⟨c :: ts, List.suffix_refl _, h⟩
      · exact ⟨l, hl.trans (List.suffix_cons c ts), hf⟩
    · rintro ⟨l, hl, hf⟩
      rcases List.suffix_cons_iff.mp hl with h | h
      · subst h; exact Or.inl hf
      · exact Or.inr ⟨l, h, hf⟩

theorem parseLikePattern_percent (ps : List Char) :
    parseLikePattern ('%' :: ps) = .any :: parseLikePattern ps := by
  rw [parseLikePattern.eq_def]
  dsimp only
  rw [if_pos rfl]

theorem parseLikePattern_lit {c : Char} (ps : List Char)
    (h1 : c ≠ '%') (h2 : c ≠ '_') (h3 : c ≠ '\\') :
    parseLikePattern (c :: ps) = .lit c :: parseLikePattern ps := by
  rw [parseLikePattern.eq_def]
  dsimp only
  rw [if_neg h1, if_neg h2, if_neg h3]

theorem likeTok_lit_any (nd t : List Char) :
    likeTokMatch (nd.map .lit ++ [.any]) t = true ↔ nd <+: t := by
  induction nd generalizing t with
  | nil =>
    simp only [List.map_nil, List.nil_append]
    constructor
    · intro _; exact List.nil_prefix
    · intro _
      rw [show likeTokMatch [LikeTok.any] t
            = anySuffix (likeTokMatch []) t from by simp only [likeTokMatch],
          anySuffix_iff]
      exact ⟨[], List.nil_suffix, rfl⟩
  | cons c cs ih =>
    cases t with
    | nil => simp [likeTokMatch]
    | cons d ts =>
      simp only [List.map_cons, List.cons_append, likeTokMatch,
        List.append_eq, Bool.and_eq_true, beq_iff_eq, ih,
        List.cons_prefix_cons]
      exact ⟨fun ⟨a, b⟩ => ⟨a.symm, b⟩, fun ⟨a, b⟩ => ⟨a.symm, b⟩⟩

theorem likeTok_contains (nd t : List Char) :
    likeTokMatch (.any :: (nd.map .lit ++ [.any])) t = true ↔ nd <:+: t := by
  rw [show likeTokMatch (.any :: (nd.map .lit ++ [.any])) t
        = anySuffix (likeTokMatch (nd.map .lit ++ [.any])) t from
        by simp only [likeTokMatch],
      anySuffix_iff]
  constructor
  · rintro ⟨ts, hsuf, hm⟩
    exact List.infix_iff_prefix_suffix.mpr
      ⟨ts, (likeTok_lit_any nd ts).mp hm, hsuf⟩
  · intro hinf
    obtain ⟨ts, hpre, hsuf⟩ := List.infix_iff_prefix_suffix.mp hinf
    exact ⟨ts, hsuf, (likeTok_lit_any nd ts).mpr hpre⟩

theorem parse_append_percent {nd : List Char} (h : noWildcards nd) :
    parseLikePattern (nd ++ ['%']) = nd.map .lit ++ [.any] := by
  induction nd with
  | nil =>
    rw [List.nil_append, parseLikePattern_percent]
    rfl
  | cons c cs ih =>
    obtain ⟨h1, h2, h3⟩ := h c (List.mem_cons_self c cs)
    have hcs : noWildcards cs := fun x hx => h x (List.mem_cons_of_mem c hx)
    rw [List.cons_append, parseLikePattern_lit _ h1 h2 h3, ih hcs,
      List.map_cons, List.cons_append]

theorem string_data_append (a b : String) : (a ++ b).data = a.data ++ b.data :=
  rfl

theorem cellIlike_eq_substr {search : String} (hw : noWildcards search.data)
    (v : JVal) :
    cellIlike ("%" ++ search ++ "%") v = cellSubstrCI search v := by
  cases v with
  | str s =>
    have hdata : ("%" ++ search ++ "%").data
        = '%' :: (search.data ++ ['%']) := by
      rw [string_data_append, string_data_append]; rfl
    have hlow : lowerList ('%' :: (search.data ++ ['%']))
        = '%' :: (lowerList search.data ++ ['%']) := by
      simp [lowerList]
    have hparse : parseLikePattern ('%' :: (lowerList search.data ++ ['%']))
        = .any :: ((lowerList search.data).map .lit ++ [.any]) := by
      rw [parseLikePattern_percent,
        parse_append_percent (lowerList_wild_free hw)]
    simp only [cellIlike, cellSubstrCI, hdata, hlow, likeMatch, hparse]
    have h2 := likeTok_contains (lowerList search.data) (lowerList s.data)
    rw [Bool.eq_iff_iff]
    simp [h2]
  | undef => rfl
  | null => rfl
  | num n => rfl

theorem rowMatches_substr {search : String} (hw : noWildcards search.data)
    (hne : search ≠ "") (r : InventoryRecord) :
    rowMatches search r
      = (cellSubstrCI search r.item_code
          || cellSubstrCI search r.delivery_no) := by
  unfold rowMatches
  rw [if_neg (by simp [hne]), cellIlike_eq_substr hw, cellIlike_eq_substr hw]

/-! ### Claim C7 -/

/-- C7 (corrected): with a non-empty `filterText` free of SQL LIKE
wildcard and escape characters, the filtered row set (to which the
`ORDER BY`/`LIMIT`/`OFFSET` of the page are then applied) consists
exactly of the rows where `filterText` occurs case-insensitively in
`item_code` or in `delivery_no`; an absent `filterText` keeps every
row; and the returned total counts the rows passing the same predicate
with no limit or offset.  (For `filterText` containing `%`, `_` or
`\`, the unescaped `ILIKE '%'+search+'%'` diverges from substring
search — see the counterexample.) -/
theorem list_filter_substring :
    (∀ (search : String) (st : Store) (r : InventoryRecord),
       search ≠ "" → noWildcards search.data →
       (r ∈ st.rows.filter (rowMatches search) ↔
          r ∈ st.rows
            ∧ (cellSubstrCI search r.item_code = true
                 ∨ cellSubstrCI search r.delivery_no = true)))
    ∧ (∀ st : Store, st.rows.filter (rowMatches "") = st.rows)
    ∧ (∀ (u : User) (search : String) (limit offset : Nat) (st : Store),
         getInventory u search limit offset st
           = .ok ((st.rows.filter (rowMatches search)).drop offset
                    |>.take limit,
                  (st.rows.filter (rowMatches search)).length)) := by
  refine ⟨?_, ?_, ?_⟩
  · intro search st r hne hw
    rw [List.mem_filter, rowMatches_substr hw hne]
    simp [Bool.or_eq_true]
  · intro st
    have h : ∀ r, rowMatches "" r = true := by intro r; rfl
    simp [h]
  · intro u search limit offset st
    rfl

/-- Witness for C7: searching `"abc"` matches the sample row through
`item_code = "ABC123"` case-insensitively. -/
theorem list_filter_substring_witness :
    ("abc" ≠ "" ∧ noWildcards "abc".data)
    ∧ (rec1 ∈ store1.rows.filter (rowMatches "abc") ↔
        rec1 ∈ store1.rows
          ∧ (cellSubstrCI "abc" rec1.item_code = true
               ∨ cellSubstrCI "abc" rec1.delivery_no = true)) :=
  ⟨⟨by decide, by decide⟩,
   list_filter_substring.1 "abc" store1 rec1 (by decide) (by decide)⟩

/-- Counterexample to C7 as stated: the search text `"_"` returns the
sample row although `"_"` occurs as a substring of neither its
`item_code` nor its `delivery_no` — the unescaped `_` acts as a LIKE
wildcard. -/
theorem list_filter_wildcard_cex :
    store1.rows.filter (rowMatches "_") = [rec1]
    ∧ cellSubstrCI "_" rec1.item_code = false
    ∧ cellSubstrCI "_" rec1.delivery_no = false := by
  decide

/-! ### Claim C5 -/

/-- Every character of a sanitized string was kept by the filter of
`sanitizeInput`. -/
theorem sanitizeInput_chars (s : String) :
    ∀ c ∈ (sanitizeInput s).data, keepChar c = true := by
  intro c hc
  have hc2 : c ∈ s.data.filter keepChar := by
    change c ∈ trimList (s.data.filter keepChar) at hc
    unfold trimList at hc
    have h1 := List.mem_reverse.mp hc
    have h2 := (List.dropWhile_sublist _).subset h1
    have h3 := List.mem_reverse.mp h2
    exact (List.dropWhile_sublist _).subset h3
  exact (List.mem_filter.mp hc2).2

/-- C5 (corrected): a supplied non-empty `item_description` is stored
as `sanitizeInput` of the payload value — every character outside
`\w` (ASCII alphanumerics and underscore), whitespace and hyphen is
removed and the result is trimmed.  The underscore therefore survives,
so the claim's character class (alphanumeric, whitespace, hyphen) is
too narrow — see the counterexample. -/
theorem update_item_description_sanitized (u : User) (id : Nat)
    (p : UpdatePayload) (now : DateTime) (st : Store)
    (r' : InventoryRecord) (s : String)
    (hps : p.item_description = .str s) (hs : s ≠ "")
    (hok : (putInventory u id p now st).1 = .ok r') :
    r'.item_description = .str (sanitizeInput s)
    ∧ ∀ c ∈ (sanitizeInput s).data, keepChar c = true := by
  obtain ⟨sc, r, hsc, _, hr'⟩ := putInventory_ok hok
  obtain ⟨dd, idesc, dc, dr, hdd, hidesc, hdc, hdr, hsdd, hsid, hsdc,
    hsdr, hsrs⟩ := buildSetClause_some hsc
  have hid : idesc = some (.str (sanitizeInput s)) := by
    unfold setItemDescription at hidesc
    rw [hps] at hidesc
    simp [jtruthy, jfalsy, hs, sanitizeJ] at hidesc
    exact hidesc.symm
  subst hr'
  exact ⟨by simp [applySet, hsid, hid], sanitizeInput_chars s⟩

/-- Witness for C5's amended theorem: `"He_llo!"` is stored as
`"He_llo"`. -/
theorem update_item_description_sanitized_witness :
    (({ item_description := .str "He_llo!" } :
        UpdatePayload).item_description = .str "He_llo!"
      ∧ "He_llo!" ≠ ""
      ∧ (putInventory adminUser 1 { item_description := .str "He_llo!" }
          now1 store1).1 = .ok rec1Hello)
    ∧ (rec1Hello.item_description = .str (sanitizeInput "He_llo!")
        ∧ ∀ c ∈ (sanitizeInput "He_llo!").data, keepChar c = true) :=
  ⟨⟨rfl, by decide, by decide⟩,
   update_item_description_sanitized adminUser 1
     { item_description := .str "He_llo!" } now1 store1 rec1Hello "He_llo!"
     rfl (by decide) (by decide)⟩

/-- Counterexample to C5 as stated: updating `item_description` to
`"x_y"` stores `"x_y"` — its underscore is neither alphanumeric nor
whitespace nor a hyphen, so not every character outside that class is
removed. -/
theorem sanitize_keeps_underscore_cex :
    (putInventory adminUser 1 { item_description := .str "x_y" }
        now1 store1).1 = .ok rec1Underscore
    ∧ rec1Underscore.item_description = .str "x_y"
    ∧ '_' ∈ "x_y".data
    ∧ ('_'.isAlphanum = false ∧ '_'.isWhitespace = false ∧ '_' ≠ '-') := by
  decide

/-! ### Claim C4 -/

theorem parseDate_ne_empty {s : String} {dt : DateTime}
    (h : parseDate s = some dt) : s ≠ "" := by
  intro he
  subst he
  rw [show parseDate "" = none from by decide] at h
  cases h

theorem dchar_isDigit (n : Nat) : (dchar n).isDigit = true := by
  unfold dchar
  have h : n % 10 < 10 := Nat.mod_lt _ (by norm_num)
  set k := n % 10 with hk
  interval_cases k <;> decide

/-- Whatever the component values, the date-fns format string has the
`YYYY-MM-DD HH:mm:ss` shape. -/
theorem formatDateStr_pattern (dt : DateTime) :
    isDateTimePattern (formatDateStr dt) = true := by
  unfold formatDateStr isDateTimePattern
  simp [dchar_isDigit]

/-- C4 (corrected): every supplied non-empty (string) date field that
parses is stored reformatted through `utils.formatDate` in the
`YYYY-MM-DD HH:mm:ss` shape; but an unparsable date value does not
produce a 400 `ValidationError` — the `RangeError` thrown by date-fns
lands in the route's catch block, which answers
500 `Failed to update item`. -/
theorem update_date_reformat :
    (∀ (u : User) (id : Nat) (p : UpdatePayload) (now : DateTime)
       (st : Store) (r' : InventoryRecord) (s : String) (dt : DateTime),
       p.delivery_date = .str s → parseDate s = some dt →
       (putInventory u id p now st).1 = .ok r' →
       r'.delivery_date = .str (formatDateStr dt)
         ∧ isDateTimePattern (formatDateStr dt) = true)
    ∧ (∀ (u : User) (id : Nat) (p : UpdatePayload) (now : DateTime)
       (st : Store) (r' : InventoryRecord) (s : String) (dt : DateTime),
       p.date_counted = .str s → parseDate s = some dt →
       (putInventory u id p now st).1 = .ok r' →
       r'.date_counted = .str (formatDateStr dt)
         ∧ isDateTimePattern (formatDateStr dt) = true)
    ∧ (∀ (u : User) (id : Nat) (p : UpdatePayload) (now : DateTime)
       (st : Store) (r' : InventoryRecord) (s : String) (dt : DateTime),
       p.date_of_refill = .str s → parseDate s = some dt →
       (putInventory u id p now st).1 = .ok r' →
       r'.date_of_refill = .str (formatDateStr dt)
         ∧ isDateTimePattern (formatDateStr dt) = true)
    ∧ (∀ (u : User) (id : Nat) (p : UpdatePayload) (now : DateTime)
       (st : Store) (s : String), u.role = "admin" →
       ¬(jfalsy p.item_description = true ∧ p.item_code = JVal.undef) →
       s ≠ "" → parseDate s = none →
       (p.delivery_date = .str s ∨ p.date_counted = .str s
          ∨ p.date_of_refill = .str s) →
       (putInventory u id p now st).1
         = .err 500 "Failed to update item") := by
  refine ⟨?_, ?_, ?_, ?_⟩
  · intro u id p now st r' s dt hps hparse hok
    have hs : s ≠ "" := parseDate_ne_empty hparse
    obtain ⟨sc, r, hsc, _, hr'⟩ := putInventory_ok hok
    obtain ⟨dd, idesc, dc, dr, hdd, hidesc, hdc, hdr, hsdd, hsid, hsdc,
      hsdr, hsrs⟩ := buildSetClause_some hsc
    have hval : dd = some (.str (formatDateStr dt)) := by
      unfold setDeliveryDate at hdd
      rw [hps] at hdd
      simp [jtruthy, jfalsy, hs, formatJ, hparse] at hdd
      exact hdd.symm
    subst hr'
    exact ⟨by simp [applySet, hsdd, hval], formatDateStr_pattern dt⟩
  · intro u id p now st r' s dt hps hparse hok
    have hs : s ≠ "" := parseDate_ne_empty hparse
    obtain ⟨sc, r, hsc, _, hr'⟩ := putInventory_ok hok
    obtain ⟨dd, idesc, dc, dr, hdd, hidesc, hdc, hdr, hsdd, hsid, hsdc,
      hsdr, hsrs⟩ := buildSetClause_some hsc
    have hval : dc = some (.str (formatDateStr dt)) := by
      unfold setDateCounted at hdc
      rw [hps] at hdc
      simp [jtruthy, jfalsy, hs, formatJ, hparse] at hdc
      exact hdc.symm
    subst hr'
    exact ⟨by simp [applySet, hsdc, hval], formatDateStr_pattern dt⟩
  · intro u id p now st r' s dt hps hparse hok
    have hs : s ≠ "" := parseDate_ne_empty hparse
    obtain ⟨sc, r, hsc, _, hr'⟩ := putInventory_ok hok
    obtain ⟨dd, idesc, dc, dr, hdd, hidesc, hdc, hdr, hsdd, hsid, hsdc,
      hsdr, hsrs⟩ := buildSetClause_some hsc
    have hval : dr = some (.str (formatDateStr dt)) := by
      unfold setDateOfRefill at hdr
      rw [hps] at hdr
      simp [jtruthy, jfalsy, hs, formatJ, hparse] at hdr
      exact hdr.symm
    subst hr'
    exact ⟨by simp [applySet, hsdr, hval], formatDateStr_pattern dt⟩
  · intro u id p now st s hrole hguard hs hparse hcase
    have ha : authorize ["admin"] u = true := by
      rw [authorize_admin, hrole]; rfl
    have hnone : buildSetClause p = none := by
      unfold buildSetClause
      rcases hcase with h | h | h
      · have hsd : setDeliveryDate p = none := by
          unfold setDeliveryDate
          rw [h]
          simp [jtruthy, jfalsy, hs, formatJ, hparse]
        split
        · rename_i dd idesc dc dr hdd hidesc hdc hdr
          rw [hsd] at hdd
          cases hdd
        · rfl
      · have hsd : setDateCounted p = none := by
          unfold setDateCounted
          rw [h]
          simp [jtruthy, jfalsy, hs, formatJ, hparse]
        split
        · rename_i dd idesc dc dr hdd hidesc hdc hdr
          rw [hsd] at hdc
          cases hdc
        · rfl
      · have hsd : setDateOfRefill p = none := by
          unfold setDateOfRefill
          rw [h]
          simp [jtruthy, jfalsy, hs, formatJ, hparse]
        split
        · rename_i dd idesc dc dr hdd hidesc hdc hdr
          rw [hsd] at hdr
          cases hdr
        · rfl
    have hg2 : (jfalsy p.item_description && (p.item_code == JVal.undef))
        = false := by
      cases h1 : jfalsy p.item_description
      · simp
      · have h2 : p.item_code ≠ .undef := fun h => hguard ⟨h1, h⟩
        simp [beq_eq_false_iff_ne.mpr h2]
    unfold putInventory
    rw [ha]
    simp only [Bool.not_true, Bool.false_eq_true, if_false, hg2, hnone]

/-- Witness for C4: a parsable `delivery_date` is reformatted, and the
unparsable `"garbage"` yields the 500 error, on the sample store. -/
theorem update_date_reformat_witness :
    (patchDated.delivery_date = .str "2024-05-10"
      ∧ parseDate "2024-05-10" = some ⟨2024, 5, 10, 0, 0, 0⟩
      ∧ (putInventory adminUser 1 patchDated now1 store1).1 = .ok rec1Dated)
    ∧ (rec1Dated.delivery_date
          = .str (formatDateStr ⟨2024, 5, 10, 0, 0, 0⟩)
        ∧ isDateTimePattern (formatDateStr ⟨2024, 5, 10, 0, 0, 0⟩) = true)
    ∧ (putInventory adminUser 1
        { item_code := .str "K", delivery_date := .str "garbage" }
        now1 store1).1 = .err 500 "Failed to update item" :=
  ⟨⟨rfl, by decide, by decide⟩,
   update_date_reformat.1 adminUser 1 patchDated now1 store1 rec1Dated
     "2024-05-10" ⟨2024, 5, 10, 0, 0, 0⟩ rfl (by decide) (by decide),
   update_date_reformat.2.2.2 adminUser 1
     { item_code := .str "K", delivery_date := .str "garbage" }
     now1 store1 "garbage" rfl (by simp [jfalsy]) (by decide) (by decide)
     (Or.inl rfl)⟩

/-- Counterexample to C4 as stated: an unparsable date value answers
HTTP 500, not the claimed 400 `ValidationError`. -/
theorem update_unparsable_date_http500_cex :
    (putInventory adminUser 1
        { item_code := .str "K", delivery_date := .str "garbage" }
        now1 store1)
      = (.err 500 "Failed to update item", store1)
    ∧ (500 : Nat) ≠ 400 := by
  decide

end Inventory
